import Mathlib

/-!
Verification development for the gridstats ingestion engine.

Shallow embedding of:
* `fetcher/settlement_periods.py` (settlement-period clock),
* `fetcher/elexon_fetcher.py` (poll scheduler tick loop),
* `fetcher/bmrs_client.py` (stream router / group flattening),
* `fetcher/database.py` (fuel-type lookup cache),
* `fetcher/push_listener.py` (unit-from-subject extraction),
together with theorems settling the specification claims.
-/

namespace Gridstats

/-! ### Calendar arithmetic

Civil-calendar day numbering (days since 1970-01-01), following the
standard civil-from-days / days-from-civil algorithms.  Instants are
modelled as whole minutes since 1970-01-01T00:00.
-/

/-- A civil calendar date (year, month 1..12, day 1..31). -/
structure SDate where
  year : Int
  month : Int
  day : Int
deriving DecidableEq

/-- Day number (days since 1970-01-01) of a civil date. -/
def daysFromCivil (y m d : Int) : Int :=
  let y' := if m ≤ 2 then y - 1 else y
  let era := (if 0 ≤ y' then y' else y' - 399) / 400
  let yoe := y' - era * 400
  let mp := (m + 9) % 12
  let doy := (153 * mp + 2) / 5 + d - 1
  let doe := yoe * 365 + yoe / 4 - yoe / 100 + doy
  era * 146097 + doe - 719468

/-- Year of the civil date with the given day number (inverse direction of
`daysFromCivil`, year component only). -/
def yearOfDay (z : Int) : Int :=
  let z' := z + 719468
  let era := (if 0 ≤ z' then z' else z' - 146096) / 146097
  let doe := z' - era * 146097
  let yoe := (doe - doe / 1460 + doe / 36524 - doe / 146096) / 365
  let y := yoe + era * 400
  let doy := doe - (365 * yoe + yoe / 4 - yoe / 100)
  let mp := (5 * doy + 2) / 153
  if mp < 10 then y else y + 1

/-- Day of week of a day number, 0 = Sunday (1970-01-01 was a Thursday). -/
def weekdayZ (z : Int) : Int := (z + 4) % 7

/-- The day of month of the last Sunday of a 31-day month. -/
def lastSundayDay (y m : Int) : Int := 31 - weekdayZ (daysFromCivil y m 31)

/-! ### Europe/London timezone

United Kingdom daylight-saving rule (European rule, in force since 1996,
as recorded in the tz database used by `zoneinfo.ZoneInfo("Europe/London")`):
British Summer Time (UTC+1) runs from 01:00 UTC on the last Sunday of March
to 01:00 UTC on the last Sunday of October; otherwise GMT (UTC+0).
Expressed over naive local wall-clock minutes with Python's `fold=0`
disambiguation (a time in the spring gap takes the pre-transition offset,
an ambiguous autumn time takes the earlier, BST, reading), the offset is
+60 exactly on naive local times in [last-Sunday-of-March 02:00,
last-Sunday-of-October 02:00). -/

/-- First naive local minute of British Summer Time in year `y`. -/
def bstStartMin (y : Int) : Int := daysFromCivil y 3 (lastSundayDay y 3) * 1440 + 120

/-- First naive local minute after British Summer Time in year `y`. -/
def bstEndMin (y : Int) : Int := daysFromCivil y 10 (lastSundayDay y 10) * 1440 + 120

/-- UTC offset (in minutes) of Europe/London at a naive local wall-clock
time `t` (minutes since the naive epoch), with `fold = 0`. -/
def londonOffsetMin (t : Int) : Int :=
  let y := yearOfDay (t.fdiv 1440)
  if bstStartMin y ≤ t ∧ t < bstEndMin y then 60 else 0

/-- Convert a naive Europe/London wall-clock time (minutes) to the UTC
instant (minutes), as Python's `astimezone(UTC)` does on an aware datetime
whose wall-clock fields are `t`: subtract the zone's offset at `t`. -/
def utcOfLondonNaive (t : Int) : Int := t - londonOffsetMin t

/-- Naive local wall-clock minute of midnight of date `d`. -/
def localMidnightMin (d : SDate) : Int := daysFromCivil d.year d.month d.day * 1440

/-! ### Settlement-period clock (`fetcher/settlement_periods.py`)

```python
def sp_to_datetime(settlement_date: date, settlement_period: int) -> datetime:
    return (
        datetime.combine(settlement_date, time(0, 0, 0), tzinfo=TZ)
        + timedelta(minutes=(settlement_period - 1) * 30)
    ).astimezone(UTC)
```

`datetime.combine(d, 00:00, tzinfo=TZ)` builds the aware local midnight;
adding a `timedelta` to an aware datetime is wall-clock arithmetic on the
naive fields; `astimezone(UTC)` then subtracts the offset of the resulting
naive local time. -/

/-- The settlement-period clock: UTC instant (minutes since epoch) of the
start of settlement period `p` of civil date `d`. -/
def sp_to_datetime (d : SDate) (p : Int) : Int :=
  utcOfLondonNaive (localMidnightMin d + (p - 1) * 30)

/-- The clock as the specification words it: take midnight of the given
date in the named civil timezone, add `(period - 1) * 30` minutes of civil
wall-clock time, and then convert the result to UTC. -/
def clock_spec (d : SDate) (p : Int) : Int :=
  let midnightLocal := localMidnightMin d
  let civilInstant := midnightLocal + (p - 1) * 30
  utcOfLondonNaive civilInstant

/-! ### Poll scheduler (`fetcher/elexon_fetcher.py`)

```python
class FetchJob:
    def __init__(self, func, frequency: int):
        self.func = func
        self.frequency = frequency
        self.last_run: Optional[datetime] = None
...
    while True:
        for job in self.fetch_jobs:
            now = datetime.utcnow()
            if (job.last_run is None
                    or (now - job.last_run).total_seconds() > job.frequency):
                start = time.perf_counter()
                try:
                    async with self.db.db.transaction():
                        await job.func()
                except Exception:
                    self.log.exception(f"Error running \x7bjob\x7d")
                duration = time.perf_counter() - start
                self.log.info(...)
                job.last_run = now
        await asyncio.sleep(2)
```

Times are rationals (seconds).  A job's `func` is modelled by two data:
`duration`, the wall-clock time the call takes, and `fails`, whether the
call raises; the `except` block makes a raising call indistinguishable
from a successful one as far as the loop's control flow is concerned, so
`fails` appears only in the run record.  The clock is sampled at the due
check (`now = datetime.utcnow()`) and advances by the action's duration
while the action runs. -/

/-- A registered fetch job: the `FetchJob` fields plus the behaviour of
its `func` (wall-clock `duration` of the call and whether it raises). -/
structure FetchJob where
  frequency : Rat
  last_run : Option Rat
  duration : Rat
  fails : Bool
deriving DecidableEq

/-- Record of one invocation of a job's action during a tick: the job's
position in the registration list, the sampled `now` at its due check,
and whether the action completed without raising. -/
structure JobRun where
  idx : Nat
  start : Rat
  ok : Bool
deriving DecidableEq

/-- The due check of the tick loop:
`job.last_run is None or (now - job.last_run).total_seconds() > job.frequency`. -/
def isDue (now : Rat) (job : FetchJob) : Bool :=
  match job.last_run with
  | none => true
  | some lr => decide (job.frequency < now - lr)

/-- One pass of `for job in self.fetch_jobs` starting at list position `i`
with wall clock `clock`: returns the clock after the pass, the updated job
list, and the invocation records in order. -/
def runTickAux (clock : Rat) (i : Nat) : List FetchJob → Rat × List FetchJob × List JobRun
  | [] => (clock, [], [])
  | job :: rest =>
    if isDue clock job then
      let r := runTickAux (clock + job.duration) (i + 1) rest
      (r.1, { job with last_run := some clock } :: r.2.1, JobRun.mk i clock (!job.fails) :: r.2.2)
    else
      let r := runTickAux clock (i + 1) rest
      (r.1, job :: r.2.1, r.2.2)

/-- One full tick of the scheduler loop over the registered jobs. -/
def runTick (clock : Rat) (jobs : List FetchJob) : Rat × List FetchJob × List JobRun :=
  runTickAux clock 0 jobs

/-! ### Stream router (`fetcher/bmrs_client.py`)

```python
async def on_message(self, frame, message):
    handler = self.handlers.get(frame.headers["type"])
    if handler:
        try:
            doc = ET.fromstring(message.decode("utf-8"))
            if doc.tag == "msgGrp":
                for msg in doc.iter("msg"):
                    await handler(msg)
            else:
                await handler(doc)
        except Exception:
            self.log.exception(...)
            self.log.error(...)
    return True
```

XML documents are trees of tagged nodes; `ElementTree.iter(tag)` yields
the element itself and all its descendants with the given tag, in
document (depth-first preorder) order.  Decoding plus `ET.fromstring` is
modelled by an `Except`-valued parse result carried by the envelope;
handlers are identified by a numeric id and modelled as non-raising, so a
run of `on_message` is summarised by the argument list each handler
received, whether the body was parsed, and whether an exception was
caught and logged. -/

/-- An XML element: a tag and the list of child elements. -/
inductive XML where
  | node (tag : String) (children : List XML)

/-- The tag of an element. -/
def XML.tag : XML → String
  | .node t _ => t

/-- The children of an element. -/
def XML.children : XML → List XML
  | .node _ cs => cs

mutual
/-- `ElementTree.Element.iter(t)`: the element itself (if tagged `t`) and
all descendants tagged `t`, in document order. -/
def iterTag (t : String) : XML → List XML
  | .node tag cs => (if tag = t then [XML.node tag cs] else []) ++ iterTagList t cs
/-- `iterTag` over a list of sibling elements, in order. -/
def iterTagList (t : String) : List XML → List XML
  | [] => []
  | x :: xs => iterTag t x ++ iterTagList t xs
end

mutual
/-- Whether an element or any of its descendants is tagged `t`. -/
def containsTag (t : String) : XML → Bool
  | .node tag cs => (tag = t) || containsTagList t cs
/-- `containsTag` over a list of sibling elements. -/
def containsTagList (t : String) : List XML → Bool
  | [] => false
  | x :: xs => containsTag t x || containsTagList t xs
end

/-- Summary of one `on_message` call: the arguments dispatched to the
handler (paired with the handler's id), whether the body was parsed, and
whether an exception was caught and logged. -/
structure RouterResult where
  invocations : List (Nat × XML)
  parsed : Bool
  errorCaught : Bool

/-- The router's `on_message`: `handlers` is the registration dictionary,
`headerType` the envelope's header type, `parseResult` the outcome of
decoding and parsing the body. -/
def on_message (handlers : String → Option Nat) (headerType : String)
    (parseResult : Except String XML) : RouterResult :=
  match handlers headerType with
  | none => ⟨[], false, false⟩
  | some h =>
    match parseResult with
    | .error _ => ⟨[], true, true⟩
    | .ok doc =>
      if doc.tag = "msgGrp" then
        ⟨(iterTag "msg" doc).map (fun m => (h, m)), true, false⟩
      else
        ⟨[(h, doc)], true, false⟩

/-- Sequential processing of a stream of envelopes
(`headerType`, parse result), one `on_message` call each. -/
def processAll (handlers : String → Option Nat) :
    List (String × Except String XML) → List RouterResult
  | [] => []
  | e :: rest => on_message handlers e.1 e.2 :: processAll handlers rest

/-! ### Fuel-type lookup (`fetcher/database.py`)

```python
@lru_cache()
async def get_fuel_type(self, ref: str) -> int:
    res = await self.db.execute(
        query="SELECT id FROM fuel_type WHERE ref = :ref", values=\x7b"ref": ref\x7d
    )
    if res is None:
        raise Exception(f"Missing fuel type: \x7bref\x7d")
    return res

```

The `fuel_type` table and the per-process `lru_cache` are both
association lists from reference code to surrogate id (`lru_cache` caches
only completed results, not raised exceptions).  The body issues exactly
one `SELECT` and no write, so the call returns the store unchanged
together with the cache after the call, the result, and the number of
storage reads performed. -/

/-- First-match association-list lookup. -/
def assocLookup : List (String × Int) → String → Option Int
  | [], _ => none
  | (k, v) :: rest, ref => if k = ref then some v else assocLookup rest ref

/-- Outcome of a `get_fuel_type` call: the returned id (or the raised
exception's message), the fuel-type table afterwards, the cache
afterwards, and how many storage reads the call made. -/
structure FuelTypeResult where
  result : Except String Int
  store : List (String × Int)
  cache : List (String × Int)
  reads : Nat

/-- `DB.get_fuel_type`: `store` is the `fuel_type` table (`ref -> id`),
`cache` the `lru_cache` state, `ref` the requested reference code. -/
def get_fuel_type (store cache : List (String × Int)) (ref : String) : FuelTypeResult :=
  match assocLookup cache ref with
  | some v => ⟨Except.ok v, store, cache, 0⟩
  | none =>
    match assocLookup store ref with
    | some v => ⟨Except.ok v, store, (ref, v) :: cache, 1⟩
    | none => ⟨Except.error ("Missing fuel type: " ++ ref), store, cache, 1⟩

/-! ### Unit-from-subject extraction (`fetcher/push_listener.py`)

```python
def unit_from_subject(subject: str):
    parts = subject.split(".")
    if parts[1] in ("DYNAMIC", "BM", "RR"):
        return parts[2]
    return None
```

`str.split` with a one-character separator keeps empty segments and
returns a single-element list when the separator is absent; indexing past
the end of the list raises `IndexError`. -/

/-- Python `str.split` with a single-character separator, over the
character list: splits at every occurrence, keeping empty segments. -/
def pySplitAux (sep : Char) : List Char → List (List Char)
  | [] => [[]]
  | c :: rest =>
    match pySplitAux sep rest with
    | [] => [[]]
    | h :: t => if c = sep then [] :: h :: t else (c :: h) :: t

/-- Python `subject.split(sep)` for a one-character separator. -/
def pySplit (sep : Char) (s : String) : List String :=
  (pySplitAux sep s.toList).map String.mk

/-- Python list indexing: the element, or an `IndexError`. -/
def pyGet (xs : List String) (i : Nat) : Except String String :=
  match xs[i]? with
  | some v => Except.ok v
  | none => Except.error "IndexError"

/-- `unit_from_subject`: the extracted unit name (`some`), no unit
(`none`), or a raised `IndexError`. -/
def unit_from_subject (subject : String) : Except String (Option String) :=
  let parts := pySplit '.' subject
  match pyGet parts 1 with
  | Except.error e => Except.error e
  | Except.ok p1 =>
    if p1 = "DYNAMIC" ∨ p1 = "BM" ∨ p1 = "RR" then
      match pyGet parts 2 with
      | Except.error e => Except.error e
      | Except.ok p2 => Except.ok (some p2)
    else
      Except.ok none

/-- A concrete registration dictionary (one handler, id 0, for the wire
type FREQ), used to exercise the router theorems on closed inputs. -/
def demoHandlers : String → Option Nat := fun s => if s = "FREQ" then some 0 else none

/-! ### Theorems -/

mutual
/-- An element containing no `t`-tagged node contributes nothing to
`iter(t)`. -/
theorem iterTag_eq_nil (t : String) : ∀ x : XML, containsTag t x = false → iterTag t x = []
  | XML.node tag cs, h => by
    simp [containsTag] at h
    simp [iterTag, h.1, iterTagList_eq_nil t cs h.2]
/-- Sibling-list version of `iterTag_eq_nil`. -/
theorem iterTagList_eq_nil (t : String) :
    ∀ l : List XML, containsTagList t l = false → iterTagList t l = []
  | [], _ => rfl
  | x :: xs, h => by
    simp [containsTagList] at h
    simp [iterTagList, iterTag_eq_nil t x h.1, iterTagList_eq_nil t xs h.2]
end

/-- Over siblings that are each tagged `t` with no nested `t`-tagged
descendant, `iter(t)` is the identity: it yields exactly the siblings, in
document order. -/
theorem iterTagList_all_tagged (t : String) : ∀ msgs : List XML,
    (∀ c ∈ msgs, c.tag = t ∧ containsTagList t c.children = false) →
    iterTagList t msgs = msgs
  | [], _ => rfl
  | x :: xs, h => by
    obtain ⟨h1, h2⟩ := h x (List.mem_cons_self x xs)
    cases x with
    | node tag cs =>
      simp only [XML.tag] at h1
      simp only [XML.children] at h2
      simp [iterTagList, iterTag, h1, iterTagList_eq_nil t cs h2,
        iterTagList_all_tagged t xs (fun c hc => h c (List.mem_cons_of_mem _ hc))]

/-- Claim C1: for a registered message type with handler `hid`, an
envelope whose parsed body is a `msgGrp` container holding the logical
messages `msgs` (each a `msg` element with no nested `msg`) causes the
handler to be invoked exactly once per contained message, in document
order; an envelope whose parsed body is a bare (non-`msgGrp`) message
causes the handler to be invoked exactly once, with the whole body. -/
theorem c1_group_flattening (handlers : String → Option Nat) (t : String) (hid : Nat)
    (hreg : handlers t = some hid) :
    (∀ msgs : List XML,
      (∀ c ∈ msgs, c.tag = "msg" ∧ containsTagList "msg" c.children = false) →
      on_message handlers t (Except.ok (XML.node "msgGrp" msgs)) =
        ⟨msgs.map (fun m => (hid, m)), true, false⟩) ∧
    (∀ doc : XML, doc.tag ≠ "msgGrp" →
      on_message handlers t (Except.ok doc) = ⟨[(hid, doc)], true, false⟩) := by
  constructor
  · intro msgs hmsgs
    simp [on_message, hreg, XML.tag, iterTag, iterTagList_all_tagged "msg" msgs hmsgs]
  · intro doc hdoc
    simp [on_message, hreg, hdoc]

/-- Witness for C1: a concrete two-message group is dispatched as two
handler invocations, in order. -/
theorem c1_group_flattening_witness :
    on_message demoHandlers "FREQ"
      (Except.ok (XML.node "msgGrp" [XML.node "msg" [], XML.node "msg" [XML.node "row" []]])) =
      ⟨[(0, XML.node "msg" []), (0, XML.node "msg" [XML.node "row" []])], true, false⟩ := by
  have := (c1_group_flattening demoHandlers "FREQ" 0 rfl).1
    [XML.node "msg" [], XML.node "msg" [XML.node "row" []]]
    (by simp [XML.tag, XML.children, containsTagList, containsTag])
  simpa using this

/-- Claim C2: for every date and every settlement period in [1, 48], the
clock returns the UTC instant obtained by taking local midnight in
Europe/London, adding `(p - 1) * 30` minutes of civil wall-clock time and
converting to UTC; period 1 is local midnight converted to UTC, period 48
is local 23:30 converted to UTC, and on 2022-10-09 (a BST date) these are
2022-10-08T23:00Z and 2022-10-09T22:30Z respectively. -/
theorem c2_settlement_clock (d : SDate) (p : Int) (h1 : 1 ≤ p) (h48 : p ≤ 48) :
    sp_to_datetime d p = clock_spec d p ∧
    sp_to_datetime d 1 = utcOfLondonNaive (localMidnightMin d) ∧
    sp_to_datetime d 48 = utcOfLondonNaive (localMidnightMin d + (23 * 60 + 30)) ∧
    sp_to_datetime ⟨2022, 10, 9⟩ 1 = daysFromCivil 2022 10 8 * 1440 + 23 * 60 ∧
    sp_to_datetime ⟨2022, 10, 9⟩ 48 = daysFromCivil 2022 10 9 * 1440 + 22 * 60 + 30 := by
  refine ⟨rfl, ?_, ?_, by decide, by decide⟩
  · norm_num [sp_to_datetime]
  · norm_num [sp_to_datetime]

/-- Witness for C2 at date 2022-10-09, period 5. -/
theorem c2_settlement_clock_witness :
    sp_to_datetime ⟨2022, 10, 9⟩ 5 = clock_spec ⟨2022, 10, 9⟩ 5 :=
  (c2_settlement_clock ⟨2022, 10, 9⟩ 5 (by decide) (by decide)).1

/-- Counterexample to claim C3: given the out-of-range period 49 the
clock does not fail with a malformed-input error; it silently returns an
instant, namely the start of period 1 of the following day
(2022-10-09T23:00Z). -/
theorem c3_counterexample :
    sp_to_datetime ⟨2022, 10, 9⟩ 49 = sp_to_datetime ⟨2022, 10, 10⟩ 1 ∧
    sp_to_datetime ⟨2022, 10, 9⟩ 49 = daysFromCivil 2022 10 9 * 1440 + 23 * 60 := by
  constructor
  · decide
  · decide

/-- Claim C3 as amended: the clock performs no range validation; an
out-of-range period silently wraps into the adjacent day, so period
`p + 48` of a date denotes the same instant as period `p` of the
following day. -/
theorem c3_amended_wrap (d d' : SDate) (p : Int)
    (hnext : daysFromCivil d'.year d'.month d'.day = daysFromCivil d.year d.month d.day + 1) :
    sp_to_datetime d (p + 48) = sp_to_datetime d' p := by
  unfold sp_to_datetime localMidnightMin
  rw [hnext]
  congr 1
  ring

/-- Witness for the amended C3: period 49 of 2022-10-09 is period 1 of
2022-10-10. -/
theorem c3_amended_wrap_witness :
    sp_to_datetime ⟨2022, 10, 9⟩ (1 + 48) = sp_to_datetime ⟨2022, 10, 10⟩ 1 :=
  c3_amended_wrap ⟨2022, 10, 9⟩ ⟨2022, 10, 10⟩ 1 (by decide)

/-- Claim C4: a task is run on a tick exactly when its `last_run` is
unset or the elapsed time since `last_run` strictly exceeds its interval;
hence for any `eps > 0`, a task with `last_run = now - interval - eps` is
due and one with `last_run = now - interval + eps` is not. -/
theorem c4_due_check (now eps : Rat) (j : FetchJob) (heps : 0 < eps) :
    (isDue now j = true ↔
      (j.last_run = none ∨ ∃ lr, j.last_run = some lr ∧ j.frequency < now - lr)) ∧
    ((runTick now [j]).2.2 ≠ [] ↔ isDue now j = true) ∧
    isDue now { j with last_run := some (now - j.frequency - eps) } = true ∧
    isDue now { j with last_run := some (now - j.frequency + eps) } = false := by
  refine ⟨?_, ?_, ?_, ?_⟩
  · cases hj : j.last_run with
    | none => simp [isDue, hj]
    | some lr => simp [isDue, hj]
  · unfold runTick
    cases hd : isDue now j <;> simp [runTickAux, hd]
  · simp [isDue]
    linarith
  · simp [isDue]
    linarith

/-- Witness for C4: with `now = 10`, `interval = 5`, `eps = 1`, a task
last run at `10 - 5 - 1` is due. -/
theorem c4_due_check_witness :
    isDue 10 { frequency := 5, last_run := some (10 - 5 - 1), duration := 0, fails := false } = true :=
  (c4_due_check 10 1 ⟨5, some 2, 0, false⟩ (by norm_num)).2.2.1

/-- Claim C5: when a due task's action raises, the tick still completes:
the failing task's `last_run` is advanced to the sampled tick time, the
tasks after it are evaluated and run exactly as they would be had the
action succeeded, and the failed task is not due again until its own
interval has elapsed from that tick. -/
theorem c5_failure_isolation (clock : Rat) (j : FetchJob) (rest : List FetchJob)
    (hfail : j.fails = true) (hdue : isDue clock j = true) :
    (runTick clock (j :: rest)).2.1.head? = some { j with last_run := some clock } ∧
    (runTick clock (j :: rest)).2.1.tail =
      (runTick clock ({ j with fails := false } :: rest)).2.1.tail ∧
    (runTick clock (j :: rest)).2.2.map (fun r => (r.idx, r.start)) =
      (runTick clock ({ j with fails := false } :: rest)).2.2.map (fun r => (r.idx, r.start)) ∧
    (∀ t : Rat, t - clock ≤ j.frequency →
      isDue t { j with last_run := some clock } = false) := by
  have hdue' : isDue clock { j with fails := false } = true := by
    simpa [isDue] using hdue
  refine ⟨?_, ?_, ?_, ?_⟩
  · simp [runTick, runTickAux, hdue]
  · simp [runTick, runTickAux, hdue, hdue']
  · simp [runTick, runTickAux, hdue, hdue']
  · intro t ht
    simp [isDue]
    linarith

/-- Witness for C5: a failing due task still gets `last_run := now`. -/
theorem c5_failure_isolation_witness :
    (runTick 100 [⟨5, some 2, 1, true⟩, ⟨7, none, 1, false⟩]).2.1.head? =
      some { frequency := 5, last_run := some 100, duration := 1, fails := true } :=
  (c5_failure_isolation 100 ⟨5, some 2, 1, true⟩ [⟨7, none, 1, false⟩] rfl
    (by norm_num [isDue])).1

/-- Claim C6: an envelope whose header type has no registered handler
produces no handler invocation, no parse of the body and no error, and
processing of the following envelopes is unchanged. -/
theorem c6_unknown_type (handlers : String → Option Nat) (t : String)
    (hno : handlers t = none) (body : Except String XML)
    (rest : List (String × Except String XML)) :
    on_message handlers t body = ⟨[], false, false⟩ ∧
    processAll handlers ((t, body) :: rest) =
      RouterResult.mk [] false false :: processAll handlers rest := by
  constructor
  · simp [on_message, hno]
  · simp [processAll, on_message, hno]

/-- Witness for C6: a concrete unregistered type (BOAL) is dropped. -/
theorem c6_unknown_type_witness :
    on_message demoHandlers "BOAL" (Except.ok (XML.node "row" [])) = ⟨[], false, false⟩ :=
  (c6_unknown_type demoHandlers "BOAL" rfl (Except.ok (XML.node "row" []))
    [("FREQ", Except.ok (XML.node "row" []))]).1

/-- Claim C7: a fuel-type lookup returns the cached id with no storage
read when the code was looked up before; on a cache miss it performs
exactly one storage read, and if the code is absent from the reference
table it fails with a missing-reference error; in every case the table
itself is left unchanged (nothing is inserted), and after a successful
miss the id is cached so a repeat lookup does no read. -/
theorem c7_fuel_type_cache (store cache : List (String × Int)) (ref : String) :
    (∀ v, assocLookup cache ref = some v →
      get_fuel_type store cache ref = ⟨Except.ok v, store, cache, 0⟩) ∧
    (get_fuel_type store cache ref).store = store ∧
    (assocLookup cache ref = none →
      (get_fuel_type store cache ref).reads = 1 ∧
      (assocLookup store ref = none →
        (get_fuel_type store cache ref).result =
          Except.error ("Missing fuel type: " ++ ref)) ∧
      (∀ v, assocLookup store ref = some v →
        (get_fuel_type store cache ref).result = Except.ok v ∧
        get_fuel_type store (get_fuel_type store cache ref).cache ref =
          ⟨Except.ok v, store, (ref, v) :: cache, 0⟩)) := by
  refine ⟨?_, ?_, ?_⟩
  · intro v hv
    simp [get_fuel_type, hv]
  · cases hc : assocLookup cache ref with
    | some v => simp [get_fuel_type, hc]
    | none =>
      cases hs : assocLookup store ref <;> simp [get_fuel_type, hc, hs]
  · intro hc
    refine ⟨?_, ?_, ?_⟩
    · cases hs : assocLookup store ref <;> simp [get_fuel_type, hc, hs]
    · intro hs
      simp [get_fuel_type, hc, hs]
    · intro v hs
      constructor
      · simp [get_fuel_type, hc, hs]
      · simp [get_fuel_type, hc, hs, assocLookup]

/-- Witness for C7: a cached code is returned with zero reads. -/
theorem c7_fuel_type_cache_witness :
    get_fuel_type [("CCGT", 1)] [("CCGT", 1)] "CCGT" =
      ⟨Except.ok 1, [("CCGT", 1)], [("CCGT", 1)], 0⟩ :=
  (c7_fuel_type_cache [("CCGT", 1)] [("CCGT", 1)] "CCGT").1 1 rfl

/-- Claim C8: when the subject's second dot-separated segment is DYNAMIC,
BM or RR the extraction returns the third segment, and when it is none of
these it returns no unit; concretely BMRA.DYNAMIC.T_MEDP-1.SEL gives
T_MEDP-1 and BMRA.BM.E_ABERDARE.FPN gives E_ABERDARE. -/
theorem c8_unit_extraction (s : String) :
    (∀ p1 p2, (pySplit '.' s)[1]? = some p1 → (pySplit '.' s)[2]? = some p2 →
      (p1 = "DYNAMIC" ∨ p1 = "BM" ∨ p1 = "RR") →
      unit_from_subject s = Except.ok (some p2)) ∧
    (∀ p1, (pySplit '.' s)[1]? = some p1 →
      ¬(p1 = "DYNAMIC" ∨ p1 = "BM" ∨ p1 = "RR") →
      unit_from_subject s = Except.ok none) ∧
    unit_from_subject "BMRA.DYNAMIC.T_MEDP-1.SEL" = Except.ok (some "T_MEDP-1") ∧
    unit_from_subject "BMRA.BM.E_ABERDARE.FPN" = Except.ok (some "E_ABERDARE") := by
  refine ⟨?_, ?_, rfl, rfl⟩
  · intro p1 p2 h1 h2 hmem
    rcases hmem with h | h | h <;> subst h <;> simp [unit_from_subject, pyGet, h1, h2]
  · intro p1 h1 hmem
    simp [unit_from_subject, pyGet, h1, hmem]

/-- Witness for C8 on a concrete RR subject. -/
theorem c8_unit_extraction_witness :
    unit_from_subject "BMRA.RR.T_UNIT.BOD" = Except.ok (some "T_UNIT") :=
  (c8_unit_extraction "BMRA.RR.T_UNIT.BOD").1 "RR" "T_UNIT" rfl rfl (Or.inr (Or.inr rfl))

/-- Splitting a string that does not contain the separator yields the
single-element list, as Python's `str.split` does. -/
theorem pySplitAux_no_sep (sep : Char) : ∀ l : List Char, sep ∉ l → pySplitAux sep l = [l]
  | [], _ => rfl
  | c :: rest, h => by
    have hc : ¬(c = sep) := fun he => h (he ▸ List.mem_cons_self c rest)
    have hr : sep ∉ rest := fun hm => h (List.mem_cons_of_mem c hm)
    simp [pySplitAux, pySplitAux_no_sep sep rest hr, hc]

/-- Claim C9: the timestamp stored into a run job's `last_run` is the one
sampled at the due check, before the action is invoked: after a tick the
job's `last_run` is the tick-start clock while the clock itself has
advanced by the action's duration, so the next due time is measured from
the start of the run. -/
theorem c9_lastrun_start (clock : Rat) (j : FetchJob) (hdue : isDue clock j = true) :
    (runTick clock [j]).2.1 = [{ j with last_run := some clock }] ∧
    (runTick clock [j]).1 = clock + j.duration ∧
    ∀ t : Rat, isDue t { j with last_run := some clock } = decide (j.frequency < t - clock) := by
  refine ⟨?_, ?_, ?_⟩
  · simp [runTick, runTickAux, hdue]
  · simp [runTick, runTickAux, hdue]
  · intro t
    simp [isDue]

/-- Witness for C9: a job with a 30-second action run at clock 50 ends
the tick with `last_run = 50`, not 80. -/
theorem c9_lastrun_start_witness :
    (runTick 50 [⟨5, some 2, 30, false⟩]).2.1 =
      [{ frequency := 5, last_run := some 50, duration := 30, fails := false }] :=
  (c9_lastrun_start 50 ⟨5, some 2, 30, false⟩ (by norm_num [isDue])).1

/-- Claim C10: on a subject with no dot separator (such as the empty
string) the split yields fewer than two segments and accessing the second
segment raises an `IndexError` instead of returning an absent unit. -/
theorem c10_no_dot (s : String) (h : '.' ∉ s.toList) :
    unit_from_subject s = Except.error "IndexError" := by
  have hs := pySplitAux_no_sep '.' s.toList h
  simp only [String.toList] at hs
  simp [unit_from_subject, pySplit, hs, pyGet]

/-- Witness for C10: the empty subject raises an `IndexError`. -/
theorem c10_no_dot_witness :
    unit_from_subject "" = Except.error "IndexError" :=
  c10_no_dot "" (by decide)

end Gridstats
